import Mathlib

/-!
Verification of the dosage-calculator extraction/dose pipeline.

The TypeScript sources are embedded shallowly: strings are `String`/`List Char`,
JavaScript numbers are `ℚ` (the dose/interval arithmetic in the sources is
exact decimal arithmetic on the values we reason about), JSON values are the
inductive `JsVal`, fallible steps are `Option`/`Except`, and network calls
(fetch, the OpenAI oracle) are parameters of the embedded functions.
-/

/-! ## JavaScript character classes and string helpers -/

/-- ASCII decimal digit, the `\d` class of the source regexes. -/
def isDigitCh (c : Char) : Bool := '0' ≤ c && c ≤ '9'

/-- The JS `\s` class (ASCII part plus NBSP); the texts scanned by the
sources only contain the ASCII members. -/
def isJsSpace (c : Char) : Bool :=
  c = ' ' || c = '\t' || c = '\n' || c = '\r' ||
  c = '\u000B' || c = '\u000C' || c = ' '

/-- The JS `\w` class `[A-Za-z0-9_]`. -/
def isWordChar (c : Char) : Bool := c.isAlphanum || c = '_'

/-- `String.prototype.toLowerCase` (ASCII range; the scanned monograph texts
are ASCII). -/
def lowerStr (s : String) : String := String.mk (s.data.map Char.toLower)

/-- JS `String.prototype.trim` on a character list (both ends, `\s`). -/
def trimChars (cs : List Char) : List Char :=
  ((cs.dropWhile isJsSpace).reverse.dropWhile isJsSpace).reverse

/-- JS `String.prototype.trim`. -/
def trimStr (s : String) : String := String.mk (trimChars s.data)

/-- Whether `pat` occurs as a contiguous substring of `hay`
(JS `String.prototype.includes`). -/
def listContains (hay pat : List Char) : Bool :=
  hay.tails.any (fun t => pat.isPrefixOf t)

/-- `hay.includes(pat)` on strings. -/
def strContains (hay pat : String) : Bool := listContains hay.data pat.data

/-- Numeric value of a digit run. -/
def digitsToNat (ds : List Char) : Nat :=
  ds.foldl (fun a c => a * 10 + (c.toNat - 48)) 0

/-- Value captured by `(\d+(?:\.\d+)?)`: integer digits `ds` and fractional
digits `fs`. -/
def numCapture (ds fs : List Char) : ℚ :=
  (digitsToNat ds : ℚ) + (digitsToNat fs : ℚ) / (10 : ℚ) ^ fs.length

/-!
`matchNumUnitAt unit cs` attempts the regex `(\d+(?:\.\d+)?)\s*unit` at the
start of `cs`, with the backtracking of the original engine: the digit run is
maximal (a shorter run is followed by a digit, which can match neither `\.`,
`\s` nor the unit letter, so backtracking it never succeeds), the optional
fraction is taken exactly when a `.` followed by a digit is present (if the
rest then fails, retrying without the fraction dies on the `.`), and `\s*` is
maximal (fewer spaces leave a space where the unit letter is required).
On success it returns the captured value and the characters after the unit.
The optional `(?:\s*\/\s*day|\s*per\s*day|\s*daily)?` tail of the source
regexes is not consumed here: it contains no digit, so resuming the global
scan right after the unit finds exactly the same later matches.
-/
def matchNumUnitAt (unit : List Char) (cs : List Char) : Option (ℚ × List Char) :=
  let ds := cs.takeWhile isDigitCh
  let r1 := cs.dropWhile isDigitCh
  if ds.isEmpty then none
  else
    let fr : List Char × List Char :=
      match r1 with
      | '.' :: r => if (r.takeWhile isDigitCh).isEmpty then ([], r1)
                    else (r.takeWhile isDigitCh, r.dropWhile isDigitCh)
      | _ => ([], r1)
    let r3 := fr.2.dropWhile isJsSpace
    if unit.isPrefixOf r3 then some (numCapture ds fr.1, r3.drop unit.length)
    else none

/-- Driver of `text.matchAll(/(\d+(?:\.\d+)?)\s*unit.../g)`: left-to-right,
non-overlapping, resuming after each match. `fuel` bounds the recursion; a
successful match consumes at least the digit run and the unit, and a failed
position advances by one character, so `fuel = cs.length` (as supplied by
`scanNumUnit`) never runs out before the scan is complete. -/
def scanNumUnitGo (unit : List Char) : Nat → List Char → List ℚ
  | 0, _ => []
  | _, [] => []
  | fuel + 1, c :: cs =>
    match matchNumUnitAt unit (c :: cs) with
    | some (v, rest) => v :: scanNumUnitGo unit fuel rest
    | none => scanNumUnitGo unit fuel cs

/-- All values captured by the global number-unit regex over `cs`. -/
def scanNumUnit (unit : List Char) (cs : List Char) : List ℚ :=
  scanNumUnitGo unit cs.length cs

/-- First match only (JS non-global `String.prototype.match`). -/
def firstNumUnit (unit : List Char) (cs : List Char) : Option ℚ :=
  (scanNumUnit unit cs).head?

/-! ### The two regex tests of `trustAiDailyCap` -/

/-- Word boundary `\b` after a unit: end of input or a non-word character. -/
def boundaryAfter : List Char → Bool
  | [] => true
  | c :: _ => !isWordChar c

/-- Try one alternative of `(mg|g)\b` at the start of `cs`. -/
def unitWithBoundary (u : List Char) (cs : List Char) : Bool :=
  u.isPrefixOf cs && boundaryAfter (cs.drop u.length)

/-- Try `\b\d+(\.\d+)?\s*(mg|g)\b` anchored at the start of `cs` (the `\b`
before the digits is checked by the caller via the previous character). -/
def unitsMatchAt (cs : List Char) : Bool :=
  let ds := cs.takeWhile isDigitCh
  if ds.isEmpty then false
  else
    let r1 := cs.dropWhile isDigitCh
    let r2 : List Char :=
      match r1 with
      | '.' :: r => if (r.takeWhile isDigitCh).isEmpty then r1
                    else r.dropWhile isDigitCh
      | _ => r1
    let r3 := r2.dropWhile isJsSpace
    unitWithBoundary ['m', 'g'] r3 || unitWithBoundary ['g'] r3

/-- `/\b\d+(\.\d+)?\s*(mg|g)\b/i.test(q)` on an already-lowercased `q`:
some position with a word boundary before it starts a match. -/
def hasUnitsGo : Option Char → List Char → Bool
  | _, [] => false
  | prev, c :: cs =>
    ((match prev with
      | none => true
      | some p => !isWordChar p) && unitsMatchAt (c :: cs))
    || hasUnitsGo (some c) cs

/-- The `hasUnits` test of `trustAiDailyCap`. -/
def hasUnitsTest (s : String) : Bool := hasUnitsGo none s.data

/-- `24[-\s]?hour` occurs in `cs`. -/
def has24Hour (cs : List Char) : Bool :=
  cs.tails.any fun t =>
    match t with
    | '2' :: '4' :: rest =>
      (['h', 'o', 'u', 'r'].isPrefixOf rest) ||
      (match rest with
       | c :: rest2 => (c = '-' || isJsSpace c) && ['h', 'o', 'u', 'r'].isPrefixOf rest2
       | [] => false)
    | _ => false

/-- `/(per day|daily|24[-\s]?hour|in 24 hours|a day)/i.test(q)` on an
already-lowercased `q`: the `hasDaily` test of `trustAiDailyCap`. -/
def hasDailyTest (s : String) : Bool :=
  strContains s "per day" || strContains s "daily" || has24Hour s.data ||
  strContains s "in 24 hours" || strContains s "a day"

/-! ## JSON values and JavaScript coercions -/

/-- A JSON/JavaScript value. `undefined` is JavaScript `undefined` (absent
property); `null` is JSON null. Object fields are kept in insertion order. -/
inductive JsVal where
  | undefined
  | null
  | bool (b : Bool)
  | num (q : ℚ)
  | str (s : String)
  | arr (xs : List JsVal)
  | obj (fields : List (String × JsVal))

/-- Optional-chaining property access `j?.k`: `undefined` on non-objects,
first field with the given name otherwise. -/
def JsVal.get (j : JsVal) (k : String) : JsVal :=
  match j with
  | .obj fs =>
    match fs.find? (fun p => p.1 == k) with
    | some p => p.2
    | none => .undefined
  | _ => .undefined

/-- JS truthiness (`!!v`). `num` carries no NaN: NaN arises only from the
`Number(...)` coercions, which are modelled as `Option ℚ` below. -/
def JsVal.truthy : JsVal → Bool
  | .undefined => false
  | .null => false
  | .bool b => b
  | .num q => q != 0
  | .str s => !s.isEmpty
  | .arr _ => true
  | .obj _ => true

/-- `Array.isArray(v)`. -/
def JsVal.isArr : JsVal → Bool
  | .arr _ => true
  | _ => false

/-- The element list of an array, `[]` otherwise (used for the
`v ?? []`-then-iterate and `Array.isArray(v) ? v : []` patterns; spreading a
non-array non-nullish value would throw in JS and is not exercised by any
claim). -/
def JsVal.elems : JsVal → List JsVal
  | .arr xs => xs
  | _ => []

/-- `typeof v === "object" && v !== null` (arrays included). -/
def JsVal.isObjLike : JsVal → Bool
  | .arr _ => true
  | .obj _ => true
  | _ => false

/-- `v == null` (JS loose equality with null: null or undefined). -/
def JsVal.isNullish : JsVal → Bool
  | .undefined => true
  | .null => true
  | _ => false

/-- Decimal rendering of a rational, for JS number-to-string coercion.
Integers render exactly as in JS; a non-integer with a power-of-ten
denominator (every JSON decimal literal) renders as its exact decimal
expansion; other rationals (never produced by the inputs any claim touches)
fall back to a fraction notation. -/
def qToString (q : ℚ) : String :=
  let sign := if q < 0 then "-" else ""
  let n := q.num.natAbs
  if q.den = 1 then sign ++ Nat.repr n
  else
    match (List.range 40).find? (fun k => (q * (10 : ℚ) ^ (k + 1)).den = 1) with
    | some k =>
      let scaled := (q * (10 : ℚ) ^ (k + 1)).num.natAbs
      let ip := scaled / 10 ^ (k + 1)
      let fp := scaled % 10 ^ (k + 1)
      let fpDigits := Nat.repr fp
      let pad := String.mk (List.replicate (k + 1 - fpDigits.length) '0')
      sign ++ Nat.repr ip ++ "." ++ pad ++ fpDigits
    | none => sign ++ Nat.repr n ++ "/" ++ Nat.repr q.den

mutual

/-- JS `String(v)` coercion. -/
def JsVal.coerceStr : JsVal → String
  | .undefined => "undefined"
  | .null => "null"
  | .bool b => if b then "true" else "false"
  | .num q => qToString q
  | .str s => s
  | .arr xs => jsArrJoin xs
  | .obj _ => "[object Object]"
termination_by structural v => v

/-- `Array.prototype.toString`: elements joined by commas, nullish elements
rendered empty. -/
def jsArrJoin : List JsVal → String
  | [] => ""
  | [.undefined] => ""
  | [.null] => ""
  | [x] => JsVal.coerceStr x
  | .undefined :: xs => "," ++ jsArrJoin xs
  | .null :: xs => "," ++ jsArrJoin xs
  | x :: xs => JsVal.coerceStr x ++ "," ++ jsArrJoin xs
termination_by structural l => l

end

/-- `String(v ?? "")`: the sources' standard read of a text field. -/
def JsVal.strOrEmpty (v : JsVal) : String :=
  if v.isNullish then "" else v.coerceStr

/-- Parse of a trimmed decimal numeral for `Number(string)`; `none` is NaN.
Handles sign, integer/fraction digits and the empty string (0); the exotic
JS forms (exponents, hex/binary literals, Infinity) do not occur in any
input a claim touches and map to `none` like any other unparsed text. -/
def jsParseNumChars (cs : List Char) : Option ℚ :=
  match trimChars cs with
  | [] => some 0
  | cs' =>
    let (sgn, body) : ℚ × List Char :=
      match cs' with
      | '-' :: r => (-1, r)
      | '+' :: r => (1, r)
      | r => (1, r)
    let ds := body.takeWhile isDigitCh
    let rest := body.dropWhile isDigitCh
    match rest with
    | [] => if ds.isEmpty then none else some (sgn * digitsToNat ds)
    | ['.'] => if ds.isEmpty then none else some (sgn * digitsToNat ds)
    | '.' :: fs =>
      if fs.all isDigitCh && !(ds.isEmpty && fs.isEmpty) then
        some (sgn * numCapture ds fs)
      else none
    | _ => none

/-- JS `Number(v)`; `none` is NaN (and the non-finite results, which every
call site discards the same way via `Number.isFinite`). -/
def jsToNum : JsVal → Option ℚ
  | .num q => some q
  | .null => some 0
  | .undefined => none
  | .bool b => some (if b then 1 else 0)
  | .str s => jsParseNumChars s.data
  | .arr [] => some 0
  | .arr [x] => jsToNum x
  | .arr (_ :: _ :: _) => none
  | .obj _ => none

/-- `typeof v === "string" ? v : fallback-shape`: the string payload. -/
def JsVal.asStr? : JsVal → Option String
  | .str s => some s
  | _ => none

/-- `typeof v === "number"` payload. -/
def JsVal.asNum? : JsVal → Option ℚ
  | .num q => some q
  | _ => none

/-! ## `dose_ai` — the Dose Safety Gate (`src/supabase/functions/dose_ai/index.ts`) -/

namespace DoseAi

/-- Decision statuses. The `dose_ai` response type admits only `OK` and
`WARN`; `BLOCK` exists only in other iterations of the handler, and `ERROR`
is the payload of the handler's catch-all 500 response. Keeping them in one
type lets the theorems state which of these actually occur. -/
inductive Status where
  | OK
  | WARN
  | BLOCK
  | ERROR
deriving DecidableEq

/-- A dose request body. `weight_kg`, `age_years` and `last_dose_mg` are
`number | string | null` in the source and are consumed exclusively through
`asNumber` (`Number(...)` guarded by `Number.isFinite`); they are modelled by
the result of that coercion (`none` = missing or not a finite number).
`last_dose_time` is consumed through `new Date(...)`: `some t` is a parseable
timestamp (epoch milliseconds), `none` is absent, empty or unparseable. -/
structure DoseReq where
  extracted_json : JsVal := .undefined
  weight_kg : Option ℚ := none
  age_years : Option ℚ := none
  gender : Option String := none
  last_dose_mg : Option ℚ := none
  last_dose_time : Option ℚ := none
  patient_notes : Option String := none

/-- The result type of `plausibilityGate`. -/
structure GateResult where
  status : Status
  message : Option String := none
deriving DecidableEq

/-- `plausibilityGate(body)`: deterministic range and combination checks on
age and weight. -/
def plausibilityGate (body : DoseReq) : GateResult :=
  match body.age_years, body.weight_kg with
  | none, _ => ⟨.WARN, some "Missing age/weight; calculation may be limited."⟩
  | _, none => ⟨.WARN, some "Missing age/weight; calculation may be limited."⟩
  | some age, some wt =>
    if age < 0 ∨ age > 120 then ⟨.WARN, some "Age out of supported range."⟩
    else if wt < 1 ∨ wt > 400 then ⟨.WARN, some "Weight out of supported range."⟩
    else if age < 2 ∧ wt > 25 then
      ⟨.WARN, some "Age/weight combination looks implausible."⟩
    else if 2 ≤ age ∧ age ≤ 10 ∧ wt > 80 then
      ⟨.WARN, some "Age/weight combination looks implausible."⟩
    else if age > 18 ∧ wt < 15 then
      ⟨.WARN, some "Weight too low for adult; verify input."⟩
    else if age > 18 ∧ wt < 25 then
      ⟨.WARN, some "Low weight for adult; verify input."⟩
    else if 10 ≤ age ∧ age ≤ 18 ∧ wt > 200 then
      ⟨.WARN, some "High weight for teen; verify input."⟩
    else ⟨.OK, none⟩

/-- `isUsableExtractedJson(v)` (the `dose_ai` variant). -/
def isUsableExtractedJson (v : JsVal) : Bool :=
  if !v.truthy || !v.isObjLike then false
  else
    let hasEvidence := (v.get "evidence_blocks").isArr &&
      (v.get "evidence_blocks").elems.length > 0
    let hasRules := (v.get "rules").isArr && (v.get "rules").elems.length > 0
    let hasTables := (v.get "tables").isArr && (v.get "tables").elems.length > 0
    let hasSections := (v.get "sections").isArr && (v.get "sections").elems.length > 0
    let dosing := v.get "dosing"
    let hasDosing := dosing.truthy &&
      ((dosing.get "oral").isArr || (dosing.get "intravenous").isArr ||
       (dosing.get "other_routes").isArr)
    let hasAnyDosingRows :=
      ((dosing.get "oral").isArr && (dosing.get "oral").elems.length > 0) ||
      ((dosing.get "intravenous").isArr && (dosing.get "intravenous").elems.length > 0) ||
      ((dosing.get "other_routes").isArr && (dosing.get "other_routes").elems.length > 0)
    let hasCaps := (v.get "max_dose_limits").isArr &&
      (v.get "max_dose_limits").elems.length > 0
    let hasMonitoring := (v.get "monitoring_requirements").isArr &&
      (v.get "monitoring_requirements").elems.length > 0
    hasEvidence || hasRules || hasTables || hasSections || hasDosing ||
      hasAnyDosingRows || hasCaps || hasMonitoring

/-- `Math.min(...cs)` on a non-empty candidate list (`List.min?` is exactly
head-seeded `foldl min`). -/
def mathMin? (cs : List ℚ) : Option ℚ := cs.min?

/-- The candidates collected by `extractMaxDailyMg` from
`evidence_blocks` (part A): per block, lower-cased text, skipped unless it
contains `"day"` or `"daily"`, then every `(\d+(\.\d+)?)\s*g...` match times
1000 followed by every `(\d+(\.\d+)?)\s*mg...` match. -/
def evidenceCapCandidates (j : JsVal) : List ℚ :=
  ((j.get "evidence_blocks").elems).flatMap fun b =>
    let txt := lowerStr (JsVal.strOrEmpty (b.get "text"))
    if txt.isEmpty then []
    else if !(strContains txt "day") && !(strContains txt "daily") then []
    else
      (scanNumUnit ['g'] txt.data).map (fun v => v * 1000) ++
      scanNumUnit ['m', 'g'] txt.data

/-- The candidates collected from `max_dose_limits` (part B): entries with a
finite `numeric_value` and unit `"g"` (times 1000) or `"mg"`. -/
def limitCapCandidates (j : JsVal) : List ℚ :=
  ((j.get "max_dose_limits").elems).flatMap fun lim =>
    let unit := lowerStr (JsVal.strOrEmpty (lim.get "unit"))
    match jsToNum (lim.get "numeric_value") with
    | none => []
    | some n =>
      (if unit = "g" then [n * 1000] else []) ++ (if unit = "mg" then [n] else [])

/-- The candidates collected from the dosing rows (part C): the first
`(\d+(\.\d+)?)\s*g` match (times 1000) and the first `(\d+(\.\d+)?)\s*mg`
match of each row's `max_daily_dose` text. -/
def dosingCapCandidates (j : JsVal) : List ℚ :=
  let dosing := j.get "dosing"
  ((dosing.get "oral").elems ++ (dosing.get "intravenous").elems ++
      (dosing.get "other_routes").elems).flatMap fun row =>
    let txt := lowerStr (JsVal.strOrEmpty (row.get "max_daily_dose"))
    if txt.isEmpty then []
    else
      (match firstNumUnit ['g'] txt.data with
       | some v => [v * 1000]
       | none => []) ++
      (match firstNumUnit ['m', 'g'] txt.data with
       | some v => [v]
       | none => [])

/-- All candidates of `extractMaxDailyMg`, in collection order. -/
def capCandidates (j : JsVal) : List ℚ :=
  evidenceCapCandidates j ++ limitCapCandidates j ++ dosingCapCandidates j

/-- `extractMaxDailyMg(extractedJson)`: `null` without candidates, otherwise
their minimum. -/
def extractMaxDailyMg (j : JsVal) : Option ℚ :=
  mathMin? (capCandidates j)

/-- The coerced result of `computeFromMonograph` (its lines that map the
parsed oracle JSON onto the typed response; any status other than `"OK"` or
`"WARN"` collapses to `WARN`). -/
structure DoseCalc where
  status : Status := .WARN
  message : String := ""
  suggested_next_dose_mg : Option ℚ := none
  interval_hours : Option ℚ := none
  next_eligible_time : Option String := none
  max_daily_mg : Option ℚ := none
  max_daily_cap_quote : Option String := none
  max_daily_cap_page : Option ℚ := none
  assumptions : Option (List String) := none
  patient_specific_notes : Option String := none
  ai_summary : Option String := none

/-- The field-by-field coercion at the end of `computeFromMonograph`,
applied to the JSON parsed from the oracle's reply. -/
def parseCalc (parsed : JsVal) : DoseCalc where
  status := if (parsed.get "status").asStr? = some "OK" then .OK else .WARN
  message := ((parsed.get "message").asStr?).getD "Unable to compute from monograph."
  suggested_next_dose_mg := (parsed.get "suggested_next_dose_mg").asNum?
  interval_hours := (parsed.get "interval_hours").asNum?
  next_eligible_time := (parsed.get "next_eligible_time").asStr?
  max_daily_mg := (parsed.get "max_daily_mg").asNum?
  max_daily_cap_quote := (parsed.get "max_daily_cap_quote").asStr?
  max_daily_cap_page := (parsed.get "max_daily_cap_page").asNum?
  assumptions :=
    if (parsed.get "assumptions").isArr then
      some (((parsed.get "assumptions").elems).map JsVal.coerceStr)
    else none
  patient_specific_notes := (parsed.get "patient_specific_notes").asStr?
  ai_summary := (parsed.get "ai_summary").asStr?

/-- `trustAiDailyCap(calc)`: the oracle-asserted cap survives only when the
quote is a non-empty string passing both regex tests and a numeric page is
present. -/
def trustAiDailyCap (calcR : DoseCalc) : Option ℚ :=
  match calcR.max_daily_mg with
  | none => none
  | some n =>
    let q := lowerStr ((calcR.max_daily_cap_quote).getD "")
    if q.isEmpty then none
    else if !hasUnitsTest q || !hasDailyTest q then none
    else
      match calcR.max_daily_cap_page with
      | none => none
      | some _ => some n

/-- The ceiling the handler enforces:
`trustAiDailyCap(calc) ?? extractMaxDailyMg(body.extracted_json)`. -/
def usedDailyCap (calcR : DoseCalc) (extractedJson : JsVal) : Option ℚ :=
  match trustAiDailyCap calcR with
  | some n => some n
  | none => extractMaxDailyMg extractedJson

/-- The `next_eligible_time` of a response: either the oracle's string or a
time computed from `last_dose_time + interval_hours`. -/
inductive NextTime where
  | fromCalc (s : String)
  | computed (t0_ms : ℚ) (interval_hours : ℚ)
deriving DecidableEq

/-- The handler's HTTP response body (plus the HTTP status code). The
"Monograph incomplete", interval-guard and error bodies omit the cap fields
entirely; an omitted field and an explicit `null` both serialize\x2fread back as
absent and are both `none` here. -/
structure DoseResponse where
  http : Nat
  status : Status
  message : String
  suggested_next_dose_mg : Option ℚ := none
  interval_hours : Option ℚ := none
  next_eligible_time : Option NextTime := none
  max_daily_mg : Option ℚ := none
  max_daily_cap_quote : Option String := none
  max_daily_cap_page : Option ℚ := none
  assumptions : Option (List String) := none
  patient_specific_notes : Option String := none
  ai_summary : Option String := none

/-- The `nextEligible` computed before the guards: the oracle's (truthy)
string, else `last_dose_time + interval_hours` when the interval is truthy
(non-zero) and a parseable last-dose time exists. -/
def nextEligibleTime (body : DoseReq) (calcR : DoseCalc) : Option NextTime :=
  if (match calcR.next_eligible_time with | some s => s.isEmpty | none => true) then
    match calcR.interval_hours, body.last_dose_time with
    | some h, some t0 =>
      if h != 0 then some (.computed t0 h)
      else (calcR.next_eligible_time).map .fromCalc
    | _, _ => (calcR.next_eligible_time).map .fromCalc
  else (calcR.next_eligible_time).map .fromCalc

/-- The interval guard's condition:
`calc.interval_hours !== null && (calc.interval_hours < 1 || calc.interval_hours > 72)`. -/
def intervalOutOfRange (calcR : DoseCalc) : Bool :=
  match calcR.interval_hours with
  | some h => decide (h < 1) || decide (h > 72)
  | none => false

/-- The interval guard's response body. -/
def intervalGuardResponse : DoseResponse :=
  { http := 200, status := .WARN, message := "Interval out of plausible range.",
    ai_summary := some "Interval out of plausible range." }

/-- `asNumber(body.last_dose_mg) !== null && lastDose >= maxDailyMg`. -/
def lastDoseReached (body : DoseReq) (m : ℚ) : Bool :=
  match body.last_dose_mg with
  | some lastDose => decide (lastDose ≥ m)
  | none => false

/-- The cap response when the last recorded dose already meets the cap. -/
def capReachedResponse (calcR : DoseCalc) (m : ℚ) : DoseResponse :=
  { http := 200, status := .WARN,
    message := "Max daily dose already reached/exceeded; no additional dose eligible within 24 hours per monograph cap.",
    suggested_next_dose_mg := some 0,
    max_daily_mg := some m,
    max_daily_cap_quote := calcR.max_daily_cap_quote,
    max_daily_cap_page := calcR.max_daily_cap_page,
    assumptions := some ((calcR.assumptions).getD []),
    patient_specific_notes :=
      some (((calcR.patient_specific_notes).getD "") ++
        " Cap used: " ++ qToString m ++ " mg/day."),
    ai_summary := some ((calcR.ai_summary).getD "Cap reached; next dose set to 0.") }

/-- The cap response when the candidate merely exceeds the ceiling. -/
def capExceededResponse (body : DoseReq) (calcR : DoseCalc) (m : ℚ) : DoseResponse :=
  { http := 200, status := .WARN,
    message := "Computed regimen appears to exceed monograph max daily limit; verify. Returning best explicit regimen.",
    suggested_next_dose_mg := calcR.suggested_next_dose_mg,
    interval_hours := calcR.interval_hours,
    next_eligible_time := nextEligibleTime body calcR,
    max_daily_mg := some m,
    max_daily_cap_quote := calcR.max_daily_cap_quote,
    max_daily_cap_page := calcR.max_daily_cap_page,
    assumptions := some ((calcR.assumptions).getD []),
    patient_specific_notes := calcR.patient_specific_notes,
    ai_summary := calcR.ai_summary }

/-- The final response merging the plausibility gate into the oracle's
answer (a gate `WARN` downgrades an `OK` and prepends its message). -/
def mergedResponse (body : DoseReq) (calcR : DoseCalc) : DoseResponse :=
  let gate := plausibilityGate body
  let gateWarns : Bool :=
    gate.status = .WARN &&
      (match gate.message with | some m => !m.isEmpty | none => false)
  { http := 200
    status :=
      if gate.status = .WARN ∧ calcR.status = .OK then Status.WARN else calcR.status
    message :=
      if gateWarns then calcR.message ++ " " ++ (gate.message).getD "" else calcR.message
    suggested_next_dose_mg := calcR.suggested_next_dose_mg
    interval_hours := calcR.interval_hours
    next_eligible_time := nextEligibleTime body calcR
    max_daily_mg := usedDailyCap calcR body.extracted_json
    max_daily_cap_quote := calcR.max_daily_cap_quote
    max_daily_cap_page := calcR.max_daily_cap_page
    assumptions := calcR.assumptions
    patient_specific_notes :=
      if gateWarns then
        some ((gate.message).getD "" ++
          (match calcR.patient_specific_notes with
           | some p => if p.isEmpty then "" else " " ++ p
           | none => ""))
      else calcR.patient_specific_notes
    ai_summary := some ((calcR.ai_summary).getD "Dose computed from monograph data.") }

/-- The handler body after a successful oracle call (`doseAiHandler` from
the `const calc = ...` line to the final merged response). -/
def doseAiCore (body : DoseReq) (calcR : DoseCalc) : DoseResponse :=
  if intervalOutOfRange calcR then intervalGuardResponse
  else
    match usedDailyCap calcR body.extracted_json, calcR.suggested_next_dose_mg,
        calcR.interval_hours with
    | some m, some d, some h =>
      if h > 0 ∧ d * (24 / h) > m then
        if lastDoseReached body m then capReachedResponse calcR m
        else capExceededResponse body calcR m
      else mergedResponse body calcR
    | _, _, _ => mergedResponse body calcR

/-- `doseAiHandler(req, key)`. The oracle call (`computeFromMonograph` up to
JSON parsing of the reply) is the `oracle` parameter: `.ok parsed` is a
successful call whose reply parsed to `parsed`; `.error msg` is any throw on
that path (HTTP failure, empty reply, unparseable JSON), which the handler's
catch converts into a status-`ERROR` 500 response. -/
def doseAiHandler (body : DoseReq) (oracle : Except String JsVal) : DoseResponse :=
  if !isUsableExtractedJson body.extracted_json then
    { http := 200, status := .WARN, message := "Monograph incomplete.",
      ai_summary := some "Monograph incomplete." }
  else
    match oracle with
    | .error msg => { http := 500, status := .ERROR, message := msg }
    | .ok parsed => doseAiCore body (parseCalc parsed)

end DoseAi

/-! ## `JSON.parse` (strict JSON, recursive descent)

`fuel` only bounds the recursion: every recursive call follows the
consumption of at least one character, so the initial fuel `length + 1`
supplied by `jsonParseStr` is never exhausted on any input. -/

/-- JSON insignificant whitespace. -/
def skipJsonWs (cs : List Char) : List Char :=
  cs.dropWhile (fun c => c = ' ' || c = '\t' || c = '\n' || c = '\r')

/-- Hex digit value. -/
def hexVal (c : Char) : Option Nat :=
  if '0' ≤ c ∧ c ≤ '9' then some (c.toNat - 48)
  else if 'a' ≤ c ∧ c ≤ 'f' then some (c.toNat - 87)
  else if 'A' ≤ c ∧ c ≤ 'F' then some (c.toNat - 55)
  else none

/-- String body after the opening quote; JSON escapes; raw control
characters rejected (astral `\u` surrogate pairs are not combined — no input
in this development contains them). -/
def parseJsonStringAux (acc : List Char) : List Char → Option (String × List Char)
  | [] => none
  | '"' :: rest => some (String.mk acc.reverse, rest)
  | '\\' :: e :: rest =>
    match e with
    | '"' => parseJsonStringAux ('"' :: acc) rest
    | '\\' => parseJsonStringAux ('\\' :: acc) rest
    | '/' => parseJsonStringAux ('/' :: acc) rest
    | 'b' => parseJsonStringAux ('\u0008' :: acc) rest
    | 'f' => parseJsonStringAux ('\u000C' :: acc) rest
    | 'n' => parseJsonStringAux ('\n' :: acc) rest
    | 'r' => parseJsonStringAux ('\r' :: acc) rest
    | 't' => parseJsonStringAux ('\t' :: acc) rest
    | 'u' =>
      match rest with
      | h1 :: h2 :: h3 :: h4 :: rest2 =>
        match hexVal h1, hexVal h2, hexVal h3, hexVal h4 with
        | some a, some b, some c, some d =>
          parseJsonStringAux (Char.ofNat (((a * 16 + b) * 16 + c) * 16 + d) :: acc) rest2
        | _, _, _, _ => none
      | _ => none
    | _ => none
  | c :: rest =>
    if c.toNat < 32 then none else parseJsonStringAux (c :: acc) rest

/-- A JSON number at the start of `cs`. -/
def parseJsonNumber (cs : List Char) : Option (JsVal × List Char) :=
  let (sgn, body) : ℚ × List Char :=
    match cs with
    | '-' :: r => (-1, r)
    | r => (1, r)
  let ds := body.takeWhile isDigitCh
  let r1 := body.dropWhile isDigitCh
  if ds.isEmpty then none
  else if ds.length > 1 ∧ ds.head? = some '0' then none
  else
    let (fs, r2) : List Char × List Char :=
      match r1 with
      | '.' :: r => (r.takeWhile isDigitCh, r.dropWhile isDigitCh)
      | _ => ([], r1)
    if (match r1 with | '.' :: _ => fs.isEmpty | _ => false) then none
    else
      let (expPart, r3) : Option (Bool × List Char) × List Char :=
        match r2 with
        | 'e' :: '-' :: r => (some (true, r.takeWhile isDigitCh), r.dropWhile isDigitCh)
        | 'E' :: '-' :: r => (some (true, r.takeWhile isDigitCh), r.dropWhile isDigitCh)
        | 'e' :: '+' :: r => (some (false, r.takeWhile isDigitCh), r.dropWhile isDigitCh)
        | 'E' :: '+' :: r => (some (false, r.takeWhile isDigitCh), r.dropWhile isDigitCh)
        | 'e' :: r => (some (false, r.takeWhile isDigitCh), r.dropWhile isDigitCh)
        | 'E' :: r => (some (false, r.takeWhile isDigitCh), r.dropWhile isDigitCh)
        | _ => (none, r2)
      match expPart with
      | some (neg, eds) =>
        if eds.isEmpty then none
        else
          let base := sgn * numCapture ds fs
          let p : ℚ := (10 : ℚ) ^ digitsToNat eds
          some (.num (if neg then base / p else base * p), r3)
      | none => some (.num (sgn * numCapture ds fs), r3)

mutual

/-- A JSON value at the start of `cs` (leading whitespace allowed). -/
def parseJsonVal : Nat → List Char → Option (JsVal × List Char)
  | 0, _ => none
  | fuel + 1, cs =>
    match skipJsonWs cs with
    | [] => none
    | '{' :: rest =>
      (match skipJsonWs rest with
       | '}' :: r2 => some (.obj [], r2)
       | r2 => parseJsonObjMembers fuel r2 [])
    | '[' :: rest =>
      (match skipJsonWs rest with
       | ']' :: r2 => some (.arr [], r2)
       | r2 => parseJsonArrElems fuel r2 [])
    | '"' :: rest => (parseJsonStringAux [] rest).map (fun p => (.str p.1, p.2))
    | 't' :: rest =>
      if ['r', 'u', 'e'].isPrefixOf rest then some (.bool true, rest.drop 3) else none
    | 'f' :: rest =>
      if ['a', 'l', 's', 'e'].isPrefixOf rest then some (.bool false, rest.drop 4) else none
    | 'n' :: rest =>
      if ['u', 'l', 'l'].isPrefixOf rest then some (.null, rest.drop 3) else none
    | cs' => parseJsonNumber cs'

/-- Members of an object, positioned at a key (after `{` or a comma). -/
def parseJsonObjMembers : Nat → List Char → List (String × JsVal) →
    Option (JsVal × List Char)
  | 0, _, _ => none
  | fuel + 1, cs, acc =>
    match skipJsonWs cs with
    | '"' :: rest =>
      match parseJsonStringAux [] rest with
      | none => none
      | some (k, r1) =>
        match skipJsonWs r1 with
        | ':' :: r2 =>
          match parseJsonVal fuel r2 with
          | none => none
          | some (v, r3) =>
            match skipJsonWs r3 with
            | ',' :: r4 => parseJsonObjMembers fuel r4 (acc ++ [(k, v)])
            | '}' :: r4 => some (.obj (acc ++ [(k, v)]), r4)
            | _ => none
        | _ => none
    | _ => none

/-- Elements of an array, positioned at an element (after `[` or a comma). -/
def parseJsonArrElems : Nat → List Char → List JsVal → Option (JsVal × List Char)
  | 0, _, _ => none
  | fuel + 1, cs, acc =>
    match parseJsonVal fuel cs with
    | none => none
    | some (v, r1) =>
      match skipJsonWs r1 with
      | ',' :: r2 => parseJsonArrElems fuel r2 (acc ++ [v])
      | ']' :: r2 => some (.arr (acc ++ [v]), r2)
      | _ => none

end

/-- `JSON.parse(s)`: a single value, then only whitespace. -/
def jsonParseStr (s : String) : Option JsVal :=
  match parseJsonVal (s.length + 1) s.data with
  | some (v, rest) => if (skipJsonWs rest).isEmpty then some v else none
  | none => none

/-! ## Cache lifecycle statuses (all handler iterations share one type) -/

/-- `CacheStatus` of the prefetch handlers, including `PENDING`/`FAIL` used
only by the earliest `pm_prefetch` iteration. -/
inductive CacheStatus where
  | NEW
  | FETCHING
  | PARSING
  | OK
  | NO_PDF
  | FETCH_FAIL
  | PARSE_FAIL
  | PENDING
  | FAIL
deriving DecidableEq

/-! ## `pm_prefetch` (evidence-block iteration): the balanced-brace JSON
extractor, sanitizer, coverage validator and repair loop -/

namespace Pm

/-- `pat.isPrefixOf` after ASCII-lowercasing the input (the `i` flag). -/
def isPrefixOfCI (pat cs : List Char) : Bool :=
  pat.isPrefixOf ((cs.take pat.length).map Char.toLower)

/-- One global, left-to-right pass of `s.replace(/pat\s*/gi, "")`; `fuel` is
the input length, and each step either drops the match (≥ `pat.length`
characters) or keeps one character, so it never runs out. -/
def stripFenceGo (pat : List Char) : Nat → List Char → List Char
  | 0, cs => cs
  | _, [] => []
  | fuel + 1, c :: cs =>
    if isPrefixOfCI pat (c :: cs) then
      stripFenceGo pat fuel (((c :: cs).drop pat.length).dropWhile isJsSpace)
    else c :: stripFenceGo pat fuel cs

/-- `stripCodeFences(s)`:
`s.replace(/```json\s*/gi, "").replace(/```\s*/g, "").trim()`. -/
def stripCodeFences (cs : List Char) : List Char :=
  let p1 := stripFenceGo ['`', '`', '`', 'j', 's', 'o', 'n'] cs.length cs
  let p2 := stripFenceGo ['`', '`', '`'] p1.length p1
  trimChars p2

/-- The depth scan of `sliceFirstJSONObject`, starting at the first `{`
(so the depth is ≥ 1 from the first step on and the `depth = 1` test is the
source's `--depth === 0`). Returns the balanced span, or `none` when the
input ends first (the source then falls back to the remainder). -/
def sliceGo : List Char → Nat → Bool → Bool → List Char → Option (List Char)
  | [], _, _, _, _ => none
  | c :: rest, depth, inStr, esc, acc =>
    if inStr then
      if esc then sliceGo rest depth true false (c :: acc)
      else if c = '\\' then sliceGo rest depth true true (c :: acc)
      else if c = '"' then sliceGo rest depth false false (c :: acc)
      else sliceGo rest depth true false (c :: acc)
    else
      if c = '"' then sliceGo rest depth true false (c :: acc)
      else if c = '{' then sliceGo rest (depth + 1) false false (c :: acc)
      else if c = '}' then
        if depth = 1 then some (c :: acc).reverse
        else sliceGo rest (depth - 1) false false (c :: acc)
      else sliceGo rest depth false false (c :: acc)

/-- `sliceFirstJSONObject(s)`: the first balanced top-level `{...}` span
under string-literal-aware depth tracking; the remainder from the first `{`
when no balanced close exists; `s` itself when there is no `{` at all. -/
def sliceFirstJSONObject (cs : List Char) : List Char :=
  match cs.dropWhile (fun c => !(c = '{')) with
  | [] => cs
  | fromBrace => (sliceGo fromBrace 0 false false []).getD fromBrace

/-- `removeTrailingCommas(s)`: `s.replace(/,\s*([}\]])/g, "$1")`, one global
left-to-right pass. -/
def removeTrailingCommasGo : Nat → List Char → List Char
  | 0, cs => cs
  | _, [] => []
  | fuel + 1, c :: cs =>
    if c = ',' then
      match cs.dropWhile isJsSpace with
      | b :: rest =>
        if b = '}' ∨ b = ']' then b :: removeTrailingCommasGo fuel rest
        else c :: removeTrailingCommasGo fuel cs
      | [] => c :: removeTrailingCommasGo fuel cs
    else c :: removeTrailingCommasGo fuel cs

def removeTrailingCommas (cs : List Char) : List Char :=
  removeTrailingCommasGo cs.length cs

/-- The character map of `normalizeQuotesAndControls`: smart double and
single quotes to their ASCII forms, control characters (U+0000-U+001F,
U+007F) to a space. -/
def normalizeChar (c : Char) : Char :=
  if c = '“' ∨ c = '”' then '"'
  else if c = '‘' ∨ c = '’' then '\''
  else if c.toNat ≤ 31 ∨ c.toNat = 127 then ' '
  else c

def normalizeQuotesAndControls (cs : List Char) : List Char :=
  cs.map normalizeChar

/-- `safeJsonParseObject(raw)`: mechanical cleanup, then `JSON.parse`;
`none` is the JSON-parse throw. -/
def safeJsonParseObject (raw : String) : Option JsVal :=
  jsonParseStr (String.mk (trimChars (normalizeQuotesAndControls
    (removeTrailingCommas (sliceFirstJSONObject (stripCodeFences raw.data))))))

/-! ### Sanitizer and deduplicator -/

/-- `normStr(v)`. -/
def normStr (v : JsVal) : String :=
  match v.asStr? with
  | some s => trimStr s
  | none => ""

/-- The allowed block categories. -/
def allowedTypes : List String :=
  ["dosing", "renal_adjustment", "hepatic_adjustment", "nomogram",
   "monitoring", "contraindication", "interaction", "administration",
   "special_population", "warning", "other", "adverse_reaction"]

/-- `normType(t)`: allowed categories pass through; common variants are
mapped by substring; anything else becomes `"other"`. -/
def normType (t : JsVal) : String :=
  let s := lowerStr (normStr t)
  if allowedTypes.contains s then s
  else if strContains s "contra" then "contraindication"
  else if strContains s "interact" then "interaction"
  else if strContains s "monitor" then "monitoring"
  else if strContains s "renal" then "renal_adjustment"
  else if strContains s "hepatic" || strContains s "liver" then "hepatic_adjustment"
  else if strContains s "admin" then "administration"
  else if strContains s "warn" || strContains s "precaution" then "warning"
  else if strContains s "adverse" then "adverse_reaction"
  else if strContains s "special" || strContains s "geriat" then "special_population"
  else if strContains s "dose" || strContains s "posolog" then "dosing"
  else "other"

/-- An evidence block after sanitization. -/
structure EvidenceBlock where
  page : ℚ
  heading : String
  type : String
  text : String
  structured : JsVal

/-- The sanitized extraction (`meta` flattened into the record). -/
structure Extracted where
  drug_name : String := ""
  pm_date : String := ""
  source_pages : Option ℚ := none
  evidence_blocks : List EvidenceBlock := []

/-- The dedupe fingerprint:
`` `${type}|${page}|${heading.toLowerCase()}|` + text.slice(0,80).toLowerCase() ``. -/
def blockKey (b : EvidenceBlock) : String :=
  b.type ++ "|" ++ qToString b.page ++ "|" ++ lowerStr b.heading ++ "|" ++
    lowerStr (String.mk (b.text.data.take 80))

/-- The `seen`-set filter that implements the dedupe. -/
def dedupeBlocksGo (seen : List String) : List EvidenceBlock → List EvidenceBlock
  | [] => []
  | b :: t =>
    if seen.contains (blockKey b) then dedupeBlocksGo seen t
    else b :: dedupeBlocksGo (blockKey b :: seen) t

/-- `dedupe` of the evidence blocks by fingerprint. -/
def dedupeBlocks (l : List EvidenceBlock) : List EvidenceBlock :=
  dedupeBlocksGo [] l

/-- `sanitizeExtracted(parsed)`: coerce the fields of each raw block, keep
blocks with non-empty heading and text, then dedupe. -/
def sanitizeExtracted (parsed : JsVal) : Extracted :=
  let rawBlocks :=
    if (parsed.get "evidence_blocks").isArr then
      ((((parsed.get "evidence_blocks").elems).map fun b =>
        { page := (jsToNum (b.get "page")).getD 0
          heading := normStr (b.get "heading")
          type := normType (b.get "type")
          text := normStr (b.get "text")
          structured :=
            if (b.get "structured").isNullish then .null else b.get "structured"
          : EvidenceBlock }).filter fun b =>
        b.text.length > 0 && b.heading.length > 0)
    else []
  { drug_name := normStr ((parsed.get "meta").get "drug_name")
    pm_date := normStr ((parsed.get "meta").get "pm_date")
    source_pages := ((parsed.get "meta").get "source_pages").asNum?
    evidence_blocks := dedupeBlocks rawBlocks }

/-! ### Coverage validator and repair loop -/

/-- Blocks of a category. -/
def countType (e : Extracted) (t : String) : Nat :=
  (e.evidence_blocks.filter (fun b => b.type = t)).length

def hasType (e : Extracted) (t : String) : Bool :=
  countType e t > 0

/-- The pediatric-dosing regex
`/pediat|paediat|child|children|infant|neonate|newborn|mg\/kg|mg\/kg\/day/`
as a substring alternation test. -/
def pedsPats : List String :=
  ["pediat", "paediat", "child", "children", "infant", "neonate", "newborn",
   "mg/kg", "mg/kg/day"]

/-- `missingCoverage(extracted)`: the list of coverage gaps, in the order
the source pushes them. -/
def missingCoverage (e : Extracted) : List String :=
  let dosingText :=
    String.intercalate "\n"
      ((e.evidence_blocks.filter (fun b => b.type = "dosing")).map fun b =>
        lowerStr (b.heading ++ "\n" ++ b.text))
  let hasPeds := pedsPats.any (fun p => strContains dosingText p)
  (if !hasType e "contraindication" then ["contraindication (>=1)"] else []) ++
  (if countType e "warning" + countType e "warning" < 2 ∧ countType e "warning" < 2 then
    ["warning (>=2)"] else []) ++
  (if !hasType e "interaction" then ["interaction (>=1)"] else []) ++
  (if !hasType e "adverse_reaction" && !hasType e "other" then
    ["adverse_reaction (>=1)"] else []) ++
  (if countType e "dosing" < 2 then ["dosing (>=2)"] else []) ++
  (if !hasPeds then ["pediatric dosing evidence (child/infant/neonate/mg/kg)"] else [])

/-- The extraction-and-repair loop of `openaiExtractPdfToJson`: the oracle's
first reply and its replies to the two possible repair calls are the three
parameters (each already JSON-parsed); returns the final `Extracted`
together with how many repair calls were made. -/
def extractWithRepairs (first repair1 repair2 : JsVal) : Extracted × Nat :=
  let e0 := sanitizeExtracted first
  if missingCoverage e0 = [] then (e0, 0)
  else
    let e1 := sanitizeExtracted repair1
    if missingCoverage e1 = [] then (e1, 1)
    else (sanitizeExtracted repair2, 2)

/-- The final-sanity check of `openaiExtractPdfToJson`: an empty
`evidence_blocks` list is the throw
`"Extraction produced no evidence_blocks"`. -/
def openaiExtractPdfToJson (first repair1 repair2 : JsVal) : Option Extracted :=
  let e := (extractWithRepairs first repair1 repair2).1
  if e.evidence_blocks.isEmpty then none else some e

/-- The cache status `pmPrefetchHandler` persists for the extraction stage:
`OK` on success, `PARSE_FAIL` when `openaiExtractPdfToJson` threw. -/
def extractionCacheStatus (first repair1 repair2 : JsVal) : CacheStatus :=
  match openaiExtractPdfToJson first repair1 repair2 with
  | some _ => .OK
  | none => .PARSE_FAIL

end Pm

/-! ## Cache rows and source rows shared by the prefetch workers -/

/-- The columns of a `dpd_pm_cache` row that the modelled handlers read or
write (timestamp columns are set on every write and are not modelled). -/
structure CacheRow where
  cache_status : Option CacheStatus := none
  cache_error : Option String := none
  source_hash : Option String := none
  extracted_json : JsVal := .undefined
  pm_pdf_url : Option String := none
  brand_name : Option String := none
  din : Option String := none
  pm_date : Option String := none

/-- A `dpd_drug_product_all` row. -/
structure SrcRow where
  brand_name : Option String := none
  din : Option String := none
  pm_pdf_url : Option String := none
  pm_date : Option String := none

/-- The per-drug result statuses of `prefetchOne`. -/
inductive DetailStatus where
  | OK
  | NO_PDF
  | FAIL
deriving DecidableEq

/-- A `PrefetchDetail`. -/
structure PrefetchDetail where
  status : DetailStatus
  error : Option String := none

/-- The observable outcome of one `prefetchOne` run: the returned detail,
the cache row afterwards (`none` = still absent), and whether the document
fetch and the extraction oracle were invoked. -/
structure PrefetchRun where
  detail : PrefetchDetail
  row : Option CacheRow
  fetchInvoked : Bool := false
  oracleInvoked : Bool := false

/-! ## `pm_prefetch_worker` — Document Fetcher retry and `prefetchOne` -/

namespace Worker

/-- The loop of `fetchWithRetry`: attempt `i`, `remaining` attempts left.
Each failed attempt sleeps `300 * 2^(i-1) + jitter i` milliseconds, where
`jitter i` models that attempt's `Math.floor(Math.random() * 250)`. Returns
the result together with the list of delays slept. -/
def fetchLoop (outcomes : Nat → Except String String) (jitter : Nat → Nat) :
    Nat → Nat → Option String → List Nat → Except String String × List Nat
  | 0, _, lastErr, delays => (.error (lastErr.getD "fetch failed"), delays.reverse)
  | remaining + 1, i, _, delays =>
    match outcomes i with
    | .ok r => (.ok r, delays.reverse)
    | .error e =>
      fetchLoop outcomes jitter remaining (i + 1) (some e)
        ((300 * 2 ^ (i - 1) + jitter i) :: delays)

/-- `fetchWithRetry(url, max)`: `outcomes i` is attempt `i` of the network
fetch, where a non-2xx response is already the thrown `HTTP <status>` error. -/
def fetchWithRetry (outcomes : Nat → Except String String) (jitter : Nat → Nat)
    (max : Nat) : Except String String × List Nat :=
  fetchLoop outcomes jitter max 1 none []

/-- `prefetchOne(drugCode)` of `pm_prefetch_worker`. `existing` is the cache
row read at entry, `src` the `dpd_drug_product_all` lookup, `sha256Hex` the
content-fingerprint function, and `oracle` the result of
`openaiExtractPdfToJson` (`.error` = any throw on that path). -/
def prefetchOne (existing : Option CacheRow) (src : Except String (Option SrcRow))
    (fetchOutcomes : Nat → Except String String) (jitter : Nat → Nat)
    (sha256Hex : String → String) (oracle : Except String JsVal) : PrefetchRun :=
  if (existing.map fun r =>
        r.cache_status = some CacheStatus.OK && r.extracted_json.truthy).getD false then
    { detail := ⟨.OK, none⟩, row := existing }
  else
    match src with
    | .error e => { detail := ⟨.FAIL, some e⟩, row := existing }
    | .ok none => { detail := ⟨.FAIL, some "drug_code not found"⟩, row := existing }
    | .ok (some srcRow) =>
      let pmUrl := trimStr ((srcRow.pm_pdf_url).getD "")
      let row1 : CacheRow :=
        { existing.getD {} with
          brand_name := srcRow.brand_name
          din := srcRow.din
          pm_pdf_url := srcRow.pm_pdf_url
          pm_date := srcRow.pm_date
          cache_status := some .NEW }
      if pmUrl.isEmpty then
        { detail := ⟨.NO_PDF, none⟩
          row := some { row1 with
            cache_status := some .NO_PDF
            cache_error := some "No Product Monograph PDF URL for this drug_code" } }
      else
        let row2 := { row1 with cache_status := some CacheStatus.FETCHING,
                                cache_error := none }
        match (fetchWithRetry fetchOutcomes jitter 4).1 with
        | .error e =>
          { detail := ⟨.FAIL, some e⟩
            row := some { row2 with cache_status := some .PARSE_FAIL,
                                    cache_error := some e }
            fetchInvoked := true }
        | .ok bytes =>
          let hash := sha256Hex bytes
          let row3 := { row2 with cache_status := some CacheStatus.PARSING }
          match oracle with
          | .error e =>
            { detail := ⟨.FAIL, some e⟩
              row := some { row3 with cache_status := some .PARSE_FAIL,
                                      cache_error := some e }
              fetchInvoked := true, oracleInvoked := true }
          | .ok extracted =>
            { detail := ⟨.OK, none⟩
              row := some { row3 with
                cache_status := some .OK
                source_hash := some hash
                extracted_json := extracted
                cache_error := none }
              fetchInvoked := true, oracleInvoked := true }

end Worker

/-! ## `prefetchOne` of the `pm_prefetch` iteration with the fingerprint
short-circuit (`src/unnamed/part_000`) -/

namespace Prefetch0

/-- `prefetchOne(drugCode)` of the fingerprint-aware `pm_prefetch`
iteration. Identical to the worker's up to the `NO_PDF` check; then it
re-reads the cache row (`cacheRead`) — after the upsert that just set
`cache_status = "NEW"` — and compares the stored `source_hash` with the
fresh fingerprint before deciding whether to call the oracle. -/
def prefetchOne (existing : Option CacheRow) (src : Except String (Option SrcRow))
    (fetchOutcomes : Nat → Except String String) (jitter : Nat → Nat)
    (sha256Hex : String → String) (oracle : Except String JsVal) : PrefetchRun :=
  if (existing.map fun r =>
        r.cache_status = some CacheStatus.OK && r.extracted_json.truthy).getD false then
    { detail := ⟨.OK, none⟩, row := existing }
  else
    match src with
    | .error e => { detail := ⟨.FAIL, some e⟩, row := existing }
    | .ok none => { detail := ⟨.FAIL, some "drug_code not found"⟩, row := existing }
    | .ok (some srcRow) =>
      let pmUrl := trimStr ((srcRow.pm_pdf_url).getD "")
      let row1 : CacheRow :=
        { existing.getD {} with
          brand_name := srcRow.brand_name
          din := srcRow.din
          pm_pdf_url := srcRow.pm_pdf_url
          pm_date := srcRow.pm_date
          cache_status := some .NEW }
      if pmUrl.isEmpty then
        { detail := ⟨.NO_PDF, none⟩
          row := some { row1 with
            cache_status := some .NO_PDF
            cache_error := some "No Product Monograph PDF URL for this drug_code" } }
      else
        let cacheRead : Option CacheStatus × Option String :=
          (row1.cache_status, row1.source_hash)
        let row2 := { row1 with cache_status := some CacheStatus.FETCHING,
                                cache_error := none }
        match (Worker.fetchWithRetry fetchOutcomes jitter 4).1 with
        | .error e =>
          { detail := ⟨.FAIL, some e⟩
            row := some { row2 with cache_status := some .PARSE_FAIL,
                                    cache_error := some e }
            fetchInvoked := true }
        | .ok bytes =>
          let hash := sha256Hex bytes
          if (match cacheRead with
              | (some CacheStatus.OK, some storedHash) =>
                !storedHash.isEmpty && storedHash = hash
              | _ => false : Bool) then
            { detail := ⟨.OK, none⟩
              row := some { row2 with cache_status := some CacheStatus.OK }
              fetchInvoked := true }
          else
            let row3 := { row2 with cache_status := some CacheStatus.PARSING }
            match oracle with
            | .error e =>
              { detail := ⟨.FAIL, some e⟩
                row := some { row3 with cache_status := some .PARSE_FAIL,
                                        cache_error := some e }
                fetchInvoked := true, oracleInvoked := true }
            | .ok extracted =>
              { detail := ⟨.OK, none⟩
                row := some { row3 with
                  cache_status := some .OK
                  source_hash := some hash
                  extracted_json := extracted
                  cache_error := none }
                fetchInvoked := true, oracleInvoked := true }

end Prefetch0

/-! ## Spec-side definitions (stated from the specification's words, for
comparison with the source-derived definitions) -/

/-- Spec-side rendering of C6's dedupe semantics: keep each block whose
fingerprint has not occurred earlier, preserving order — equivalently, keep
the head and recurse on the tail purged of the head's fingerprint. -/
def specFirstOccurrences : List Pm.EvidenceBlock → List Pm.EvidenceBlock
  | [] => []
  | b :: t =>
    b :: specFirstOccurrences (t.filter fun x => Pm.blockKey x ≠ Pm.blockKey b)
termination_by l => l.length
decreasing_by
  simp only [List.length_cons]
  exact Nat.lt_succ_of_le (List.length_filter_le _ _)

/-- C3 as written: the enforced ceiling per the claim — the corroborated
oracle cap, otherwise the minimum over the candidates found by scanning the
EvidenceSet's (evidence-block) text with a daily qualifier, or null. -/
def claimCapRule (calcR : DoseAi.DoseCalc) (j : JsVal) : Option ℚ :=
  match DoseAi.trustAiDailyCap calcR with
  | some n => some n
  | none => DoseAi.mathMin? (DoseAi.evidenceCapCandidates j)

/-! ## Concrete inputs used by counterexamples and witnesses -/

/-- An extraction whose evidence text caps the daily dose at 2 g. -/
def monographCapJson : JsVal :=
  .obj [("evidence_blocks", .arr [ .obj [
    ("heading", .str "DOSAGE AND ADMINISTRATION"), ("page", .num 4),
    ("type", .str "dosing"),
    ("text", .str "Total daily dose should not exceed 2 g per day.")]])]

/-- An extraction whose only cap source is a legacy `max_dose_limits` entry
(no evidence-block text at all). -/
def limitsOnlyJson : JsVal :=
  .obj [("max_dose_limits", .arr [ .obj [
    ("unit", .str "mg"), ("numeric_value", .num 100)]])]

/-- A dose request against `monographCapJson` whose last recorded dose
already exceeds the 2000 mg cap. -/
def capCexBody : DoseAi.DoseReq :=
  { extracted_json := monographCapJson, last_dose_mg := some 2500 }

/-- An oracle answer suggesting 600 mg every half hour. -/
def capCexParsedHalf : JsVal :=
  .obj [("status", .str "OK"), ("message", .str "ok"),
        ("suggested_next_dose_mg", .num 600), ("interval_hours", .num (1 / 2))]

/-- An oracle answer suggesting 600 mg every 6 hours (the specification's
own cap-enforcement example: 2400 mg/day against a 2000 mg cap). -/
def capParsedSix : JsVal :=
  .obj [("status", .str "OK"), ("message", .str "ok"),
        ("suggested_next_dose_mg", .num 600), ("interval_hours", .num 6)]

/-- An oracle answer asserting a corroborated 1500 mg cap (quote with a
numeric+unit token and a daily token, page cited). -/
def trustedCalc : DoseAi.DoseCalc :=
  { max_daily_mg := some 1500,
    max_daily_cap_quote := some "Should not exceed 1.5 g per day",
    max_daily_cap_page := some 4 }

/-- A fetch that fails on every attempt with an HTTP 500. -/
def allFailOutcomes : Nat → Except String String := fun _ => .error "HTTP 500"

/-- A fetch that fails transiently on attempts 1 and 2 and succeeds on
attempt 3. -/
def flakyOutcomes : Nat → Except String String :=
  fun i => if i = 3 then .ok "BYTES" else .error "HTTP 503"

/-- A cache row with prior status `OK`, a stored fingerprint, and no usable
stored extraction. -/
def fingerprintRow : CacheRow :=
  { cache_status := some .OK, source_hash := some "h", extracted_json := .null }

/-- A source row carrying a monograph URL. -/
def pdfSrcRow : SrcRow := { pm_pdf_url := some "https://example.org/pm.pdf" }

/-- The extraction the oracle would return on a re-run. -/
def rerunExtractionJson : JsVal := .obj [("rules", .arr [])]

/-- The `part_000` `prefetchOne` run against `fingerprintRow` in which the
fresh fetch fingerprints to exactly the stored hash `"h"`. -/
def fingerprintRun : PrefetchRun :=
  Prefetch0.prefetchOne (some fingerprintRow) (.ok (some pdfSrcRow))
    (fun _ => .ok "PDFBYTES") (fun _ => 0) (fun _ => "h") (.ok rerunExtractionJson)

/-- The worker `prefetchOne` run in which all four fetch attempts fail. -/
def allFailRun : PrefetchRun :=
  Worker.prefetchOne none (.ok (some pdfSrcRow)) allFailOutcomes (fun _ => 0)
    (fun _ => "h") (.error "OpenAI extraction failed: 500")

/-! ## Theorems -/

/- Batteries marks the core rational operations `@[irreducible]`, which
blocks `decide`/`rfl` evaluation of closed dose arithmetic; restore the
default reducibility (the kernel accepts these reductions either way). -/
set_option allowUnsafeReducibility true
attribute [semireducible] Rat.mul Rat.add Rat.inv

/-- `foldl min` stays inside the seeded list. -/
theorem foldlMin_mem (xs : List ℚ) : ∀ x : ℚ, xs.foldl min x ∈ x :: xs := by
  induction xs with
  | nil => intro x; simp
  | cons y ys ih =>
    intro x
    simp only [List.foldl_cons]
    have h := ih (min x y)
    rcases List.mem_cons.mp h with h' | h'
    · rw [h']
      rcases min_choice x y with hc | hc <;> rw [hc]
      · exact List.mem_cons_self _ _
      · exact List.mem_cons_of_mem _ (List.mem_cons_self _ _)
    · exact List.mem_cons_of_mem _ (List.mem_cons_of_mem _ h')

/-- `foldl min` is a lower bound of the seeded list. -/
theorem foldlMin_le (xs : List ℚ) :
    ∀ (x b : ℚ), b ∈ x :: xs → xs.foldl min x ≤ b := by
  induction xs with
  | nil =>
    intro x b hb
    rw [List.mem_singleton] at hb
    simp [hb]
  | cons y ys ih =>
    intro x b hb
    simp only [List.foldl_cons]
    have hmem : b = x ∨ b = y ∨ b ∈ ys := by simpa using hb
    rcases hmem with h | h | h
    · subst h
      exact le_trans (ih (min b y) (min b y) (List.mem_cons_self _ _)) (min_le_left b y)
    · subst h
      exact le_trans (ih (min x b) (min x b) (List.mem_cons_self _ _)) (min_le_right x b)
    · exact ih (min x y) b (List.mem_cons_of_mem _ h)

/-- `Math.min` over a candidate list: the result is the least member. -/
theorem mathMin?_eq_some_iff (l : List ℚ) (a : ℚ) :
    DoseAi.mathMin? l = some a ↔ a ∈ l ∧ ∀ b ∈ l, a ≤ b := by
  cases l with
  | nil => simp [DoseAi.mathMin?, List.min?]
  | cons x xs =>
    simp only [DoseAi.mathMin?, List.min?, Option.some.injEq]
    constructor
    · rintro rfl
      exact ⟨foldlMin_mem xs x, fun b hb => foldlMin_le xs x b hb⟩
    · rintro ⟨hmem, hle⟩
      exact le_antisymm (foldlMin_le xs x a hmem) (hle _ (foldlMin_mem xs x))

/-- `Math.min` over a candidate list is `null` only without candidates. -/
theorem mathMin?_eq_none_iff (l : List ℚ) :
    DoseAi.mathMin? l = none ↔ l = [] := by
  cases l <;> simp [DoseAi.mathMin?, List.min?]

/-- The `seen`-set filter equals first-occurrence dedupe of the blocks whose
fingerprints are not yet in `seen`. -/
theorem dedupeBlocksGo_eq_spec (l : List Pm.EvidenceBlock) :
    ∀ seen : List String,
      Pm.dedupeBlocksGo seen l =
        specFirstOccurrences (l.filter fun b => !seen.contains (Pm.blockKey b)) := by
  induction l with
  | nil => intro seen; simp [Pm.dedupeBlocksGo, specFirstOccurrences]
  | cons b t ih =>
    intro seen
    by_cases hb : seen.contains (Pm.blockKey b)
    · rw [Pm.dedupeBlocksGo, if_pos hb, ih seen, List.filter_cons,
        if_neg (by simpa using hb)]
    · rw [Pm.dedupeBlocksGo, if_neg hb, List.filter_cons, if_pos (by simpa using hb),
        specFirstOccurrences, ih (Pm.blockKey b :: seen)]
      congr 1
      rw [List.filter_filter]
      congr 1
      apply List.filter_congr
      intro x _
      by_cases hxy : Pm.blockKey x = Pm.blockKey b <;>
        simp [hxy, List.contains_cons]

/-- The dedupe filter is exactly order-preserving first-occurrence
selection. -/
theorem dedupeBlocks_eq_spec (l : List Pm.EvidenceBlock) :
    Pm.dedupeBlocks l = specFirstOccurrences l := by
  rw [Pm.dedupeBlocks, dedupeBlocksGo_eq_spec l []]
  congr 1
  simp

/-- First-occurrence dedupe returns a sublist (order preserved, nothing
invented). -/
theorem specFirstOccurrences_sublist (l : List Pm.EvidenceBlock) :
    (specFirstOccurrences l).Sublist l := by
  induction l using specFirstOccurrences.induct with
  | case1 => simp [specFirstOccurrences]
  | case2 b t ih =>
    rw [specFirstOccurrences]
    exact (ih.trans (List.filter_sublist t)).cons₂ b

/-- First-occurrence dedupe leaves no duplicate fingerprints. -/
theorem specFirstOccurrences_nodup_keys (l : List Pm.EvidenceBlock) :
    ((specFirstOccurrences l).map Pm.blockKey).Nodup := by
  induction l using specFirstOccurrences.induct with
  | case1 => simp [specFirstOccurrences]
  | case2 b t ih =>
    rw [specFirstOccurrences]
    simp only [List.map_cons, List.nodup_cons]
    refine ⟨?_, ih⟩
    intro hmem
    rcases List.mem_map.mp hmem with ⟨x, hx, hkey⟩
    have hx' := (specFirstOccurrences_sublist _).subset hx
    have := List.of_mem_filter hx'
    simp only [decide_not, Bool.not_eq_true', decide_eq_false_iff_not] at this
    exact this hkey

/-- C1 (counterexample): at `age = 1, weight = 30` the `dose_ai`
plausibility gate returns `WARN`, not the claimed `BLOCK`. -/
theorem C1_gate_counterexample :
    (DoseAi.plausibilityGate { age_years := some 1, weight_kg := some 30 }).status
        = DoseAi.Status.WARN ∧
      DoseAi.Status.WARN ≠ DoseAi.Status.BLOCK := by
  constructor
  · decide
  · decide

/-- C1 (amended): the plausibility gate is a deterministic function of age
and weight with `age=1, weight=30 ↦ WARN` (implausible combination),
`age=25, weight=20 ↦ WARN`, `age=25, weight=70 ↦ OK`, missing age or weight
`↦ WARN`, every `age < 2` with `weight > 25` `↦ WARN`, and it never returns
`BLOCK` (its result type has no such status). -/
theorem C1_gate_amended :
    ((DoseAi.plausibilityGate { age_years := some 1, weight_kg := some 30 }).status
        = DoseAi.Status.WARN) ∧
    ((DoseAi.plausibilityGate { age_years := some 25, weight_kg := some 20 }).status
        = DoseAi.Status.WARN) ∧
    ((DoseAi.plausibilityGate { age_years := some 25, weight_kg := some 70 }).status
        = DoseAi.Status.OK) ∧
    (∀ body : DoseAi.DoseReq, body.age_years = none ∨ body.weight_kg = none →
      (DoseAi.plausibilityGate body).status = DoseAi.Status.WARN) ∧
    (∀ (body : DoseAi.DoseReq) (a w : ℚ), body.age_years = some a →
      body.weight_kg = some w → a < 2 → w > 25 →
      (DoseAi.plausibilityGate body).status = DoseAi.Status.WARN) ∧
    (∀ body : DoseAi.DoseReq,
      (DoseAi.plausibilityGate body).status ≠ DoseAi.Status.BLOCK) ∧
    (∀ b1 b2 : DoseAi.DoseReq, b1.age_years = b2.age_years →
      b1.weight_kg = b2.weight_kg →
      DoseAi.plausibilityGate b1 = DoseAi.plausibilityGate b2) := by
  refine ⟨by decide, by decide, by decide, ?_, ?_, ?_, ?_⟩
  · intro body h
    cases hA : body.age_years <;> cases hW : body.weight_kg <;>
      simp_all [DoseAi.plausibilityGate]
  · intro body a w hA hW h2 h25
    simp only [DoseAi.plausibilityGate, hA, hW]
    split_ifs with g1 g2 g3 g4 g5 g6 g7 <;>
      first
        | rfl
        | exact absurd ⟨h2, h25⟩ g3
  · intro body
    rcases hA : body.age_years with _ | a <;> rcases hW : body.weight_kg with _ | w <;>
      (unfold DoseAi.plausibilityGate; rw [hA, hW]; dsimp only) <;>
      first
        | decide
        | (split_ifs <;> decide)
  · intro b1 b2 h1 h2
    unfold DoseAi.plausibilityGate
    rw [h1, h2]

/-- C1 (witness): the amended gate facts at the concrete inputs, via
`C1_gate_amended`. -/
theorem C1_gate_witness :
    (DoseAi.plausibilityGate { age_years := some 1, weight_kg := some 30 }).status
      = DoseAi.Status.WARN :=
  C1_gate_amended.2.2.2.2.1 { age_years := some 1, weight_kg := some 30 } 1 30
    rfl rfl (by decide) (by decide)

/-- `computeFromMonograph` coerces the oracle's status to `OK` or `WARN`. -/
theorem parseCalc_status (p : JsVal) :
    (DoseAi.parseCalc p).status = DoseAi.Status.OK ∨
    (DoseAi.parseCalc p).status = DoseAi.Status.WARN := by
  simp only [DoseAi.parseCalc]
  split <;> simp

/-- The status of the merged final response. -/
theorem mergedResponse_status (body : DoseAi.DoseReq) (calcR : DoseAi.DoseCalc) :
    (DoseAi.mergedResponse body calcR).status =
      if (DoseAi.plausibilityGate body).status = DoseAi.Status.WARN ∧
          calcR.status = DoseAi.Status.OK then DoseAi.Status.WARN
      else calcR.status := rfl

/-- Every branch of the post-oracle handler body yields status `WARN` or
passes the oracle's own status through. -/
theorem doseAiCore_status_cases (body : DoseAi.DoseReq) (calcR : DoseAi.DoseCalc) :
    (DoseAi.doseAiCore body calcR).status = DoseAi.Status.WARN ∨
    (DoseAi.doseAiCore body calcR).status = calcR.status := by
  unfold DoseAi.doseAiCore
  split
  · exact Or.inl rfl
  · split
    · split
      · split <;> exact Or.inl rfl
      · by_cases hg : (DoseAi.plausibilityGate body).status = DoseAi.Status.WARN ∧
            calcR.status = DoseAi.Status.OK <;> simp [mergedResponse_status, hg]
    · by_cases hg : (DoseAi.plausibilityGate body).status = DoseAi.Status.WARN ∧
          calcR.status = DoseAi.Status.OK <;> simp [mergedResponse_status, hg]

/-- C9 (counterexample): when the reasoning-oracle call fails, the dose
endpoint's result has status `ERROR` (HTTP 500) — not one of the claimed
`OK`/`WARN`/`BLOCK`. -/
theorem C9_never_raises_counterexample :
    (DoseAi.doseAiHandler { extracted_json := .obj [("rules", .arr [.obj []])] }
        (.error "OpenAI dose calculation failed: 500")).status
      = DoseAi.Status.ERROR ∧
    DoseAi.Status.ERROR ≠ DoseAi.Status.OK ∧
    DoseAi.Status.ERROR ≠ DoseAi.Status.WARN ∧
    DoseAi.Status.ERROR ≠ DoseAi.Status.BLOCK ∧
    (DoseAi.doseAiHandler { extracted_json := .obj [("rules", .arr [.obj []])] }
        (.error "OpenAI dose calculation failed: 500")).http = 500 := by
  refine ⟨by decide, by decide, by decide, by decide, by decide⟩

/-- C9 (amended): the handler is a total function whose status is always
`OK`, `WARN` or `ERROR` and never `BLOCK`; an oracle failure (HTTP error,
timeout, empty or unparseable reply) is caught and returned as the typed
status-`ERROR` HTTP-500 decision carrying the failure message. -/
theorem C9_never_raises_amended :
    (∀ (body : DoseAi.DoseReq) (oracle : Except String JsVal),
      ((DoseAi.doseAiHandler body oracle).status = DoseAi.Status.OK ∨
       (DoseAi.doseAiHandler body oracle).status = DoseAi.Status.WARN ∨
       (DoseAi.doseAiHandler body oracle).status = DoseAi.Status.ERROR) ∧
      (DoseAi.doseAiHandler body oracle).status ≠ DoseAi.Status.BLOCK) ∧
    (∀ (body : DoseAi.DoseReq) (msg : String),
      DoseAi.isUsableExtractedJson body.extracted_json = true →
      DoseAi.doseAiHandler body (.error msg)
        = { http := 500, status := DoseAi.Status.ERROR, message := msg }) := by
  constructor
  · intro body oracle
    have hmem : (DoseAi.doseAiHandler body oracle).status = DoseAi.Status.OK ∨
        (DoseAi.doseAiHandler body oracle).status = DoseAi.Status.WARN ∨
        (DoseAi.doseAiHandler body oracle).status = DoseAi.Status.ERROR := by
      unfold DoseAi.doseAiHandler
      by_cases husable : DoseAi.isUsableExtractedJson body.extracted_json
      · simp only [husable, Bool.not_true, Bool.false_eq_true, if_false]
        cases oracle with
        | error msg => simp
        | ok parsed =>
          rcases doseAiCore_status_cases body (DoseAi.parseCalc parsed) with hc | hc
          · simp [hc]
          · rcases parseCalc_status parsed with hp | hp <;> rw [hc, hp] <;> simp
      · simp [husable]
    refine ⟨hmem, ?_⟩
    rcases hmem with h | h | h <;> rw [h] <;> decide
  · intro body msg husable
    unfold DoseAi.doseAiHandler
    simp [husable]

/-- C9 (witness): the amended error-path fact at a concrete usable request,
via `C9_never_raises_amended`. -/
theorem C9_never_raises_witness :
    DoseAi.doseAiHandler { extracted_json := .obj [("rules", .arr [.obj []])] }
        (.error "boom")
      = { http := 500, status := DoseAi.Status.ERROR, message := "boom" } :=
  C9_never_raises_amended.2 { extracted_json := .obj [("rules", .arr [.obj []])] }
    "boom" (by decide)

/-- C10 (confirmed): an oracle-computed interval below 1 or above 72 hours
makes the handler return the interval-guard `WARN` response, whose
`suggested_next_dose_mg`, `interval_hours` and `next_eligible_time` are all
null — before any cap handling or gate merging. -/
theorem C10_interval_guard :
    ∀ (body : DoseAi.DoseReq) (parsed : JsVal) (h : ℚ),
      DoseAi.isUsableExtractedJson body.extracted_json = true →
      (DoseAi.parseCalc parsed).interval_hours = some h →
      (h < 1 ∨ h > 72) →
      DoseAi.doseAiHandler body (.ok parsed) = DoseAi.intervalGuardResponse ∧
      (DoseAi.doseAiHandler body (.ok parsed)).status = DoseAi.Status.WARN ∧
      (DoseAi.doseAiHandler body (.ok parsed)).suggested_next_dose_mg = none ∧
      (DoseAi.doseAiHandler body (.ok parsed)).interval_hours = none ∧
      (DoseAi.doseAiHandler body (.ok parsed)).next_eligible_time = none := by
  intro body parsed h husable hint hbad
  have hguard : DoseAi.intervalOutOfRange (DoseAi.parseCalc parsed) = true := by
    unfold DoseAi.intervalOutOfRange
    rw [hint]
    rcases hbad with hb | hb <;> simp [hb]
  have hmain : DoseAi.doseAiHandler body (.ok parsed) = DoseAi.intervalGuardResponse := by
    unfold DoseAi.doseAiHandler DoseAi.doseAiCore
    simp [husable, hguard]
  refine ⟨hmain, ?_, ?_, ?_, ?_⟩ <;> rw [hmain] <;> rfl

/-- C10 (witness): the guard at a concrete usable request whose oracle
answer carries `interval_hours = 100`, via `C10_interval_guard`. -/
theorem C10_interval_guard_witness :
    DoseAi.doseAiHandler { extracted_json := .obj [("rules", .arr [.obj []])] }
        (.ok (.obj [("interval_hours", .num 100)]))
      = DoseAi.intervalGuardResponse :=
  (C10_interval_guard { extracted_json := .obj [("rules", .arr [.obj []])] }
    (.obj [("interval_hours", .num 100)]) 100 (by decide) rfl
    (Or.inr (by decide))).1

/-- C2 (counterexample): cap 2000 mg exists, the candidate 600 mg every
half hour implies 28800 mg/day over the cap, and the last dose 2500 mg
meets the cap — yet the returned `suggested_next_dose_mg` is null, not `0`,
because the interval guard fires first. -/
theorem C2_cap_counterexample :
    DoseAi.usedDailyCap (DoseAi.parseCalc capCexParsedHalf)
        capCexBody.extracted_json = some 2000 ∧
    (DoseAi.parseCalc capCexParsedHalf).suggested_next_dose_mg = some 600 ∧
    (DoseAi.parseCalc capCexParsedHalf).interval_hours = some (1 / 2) ∧
    (600 : ℚ) * (24 / (1 / 2)) > 2000 ∧
    capCexBody.last_dose_mg = some 2500 ∧ (2500 : ℚ) ≥ 2000 ∧
    (DoseAi.doseAiHandler capCexBody (.ok capCexParsedHalf)).suggested_next_dose_mg
      = none ∧
    (none : Option ℚ) ≠ some 0 := by
  refine ⟨by decide, by decide, by decide, by decide, by decide, by decide,
    by decide, by decide⟩

/-- C2 (amended): whenever the enforced ceiling exists and the candidate's
implied 24-hour exposure exceeds it, the decision is never `OK`; and when in
addition the interval passed the plausible-range guard (`1 ≤ h ≤ 72`) and
the last recorded dose meets or exceeds the ceiling, the returned
`suggested_next_dose_mg` is `0`. -/
theorem C2_cap_enforcement_amended :
    (∀ (body : DoseAi.DoseReq) (parsed : JsVal) (m d h : ℚ),
      DoseAi.usedDailyCap (DoseAi.parseCalc parsed) body.extracted_json = some m →
      (DoseAi.parseCalc parsed).suggested_next_dose_mg = some d →
      (DoseAi.parseCalc parsed).interval_hours = some h →
      d * (24 / h) > m →
      (DoseAi.doseAiHandler body (.ok parsed)).status ≠ DoseAi.Status.OK) ∧
    (∀ (body : DoseAi.DoseReq) (parsed : JsVal) (m d h L : ℚ),
      DoseAi.isUsableExtractedJson body.extracted_json = true →
      DoseAi.usedDailyCap (DoseAi.parseCalc parsed) body.extracted_json = some m →
      (DoseAi.parseCalc parsed).suggested_next_dose_mg = some d →
      (DoseAi.parseCalc parsed).interval_hours = some h →
      d * (24 / h) > m →
      1 ≤ h → h ≤ 72 →
      body.last_dose_mg = some L → L ≥ m →
      DoseAi.doseAiHandler body (.ok parsed)
          = DoseAi.capReachedResponse (DoseAi.parseCalc parsed) m ∧
      (DoseAi.doseAiHandler body (.ok parsed)).suggested_next_dose_mg = some 0 ∧
      (DoseAi.doseAiHandler body (.ok parsed)).status = DoseAi.Status.WARN ∧
      (DoseAi.doseAiHandler body (.ok parsed)).interval_hours = none ∧
      (DoseAi.doseAiHandler body (.ok parsed)).next_eligible_time = none ∧
      (DoseAi.doseAiHandler body (.ok parsed)).max_daily_mg = some m) := by
  constructor
  · intro body parsed m d h hm hd hh hex
    unfold DoseAi.doseAiHandler
    by_cases husable : DoseAi.isUsableExtractedJson body.extracted_json
    · simp only [husable, Bool.not_true, Bool.false_eq_true, if_false]
      unfold DoseAi.doseAiCore
      by_cases hguard : DoseAi.intervalOutOfRange (DoseAi.parseCalc parsed)
      · simp only [hguard, if_true]
        decide
      · rw [if_neg hguard]
        have hrange : ¬ h < 1 := by
          intro hlt
          apply hguard
          unfold DoseAi.intervalOutOfRange
          rw [hh]
          simp [hlt]
        have hpos : h > 0 := lt_of_lt_of_le one_pos (not_lt.mp hrange)
        rw [hm, hd, hh]
        dsimp only
        rw [if_pos ⟨hpos, hex⟩]
        split <;>
          simp [DoseAi.capReachedResponse, DoseAi.capExceededResponse]
    · simp [husable]
  · intro body parsed m d h L husable hm hd hh hex h1 h72 hL hLm
    have hguard : DoseAi.intervalOutOfRange (DoseAi.parseCalc parsed) = false := by
      unfold DoseAi.intervalOutOfRange
      rw [hh]
      simp only [Bool.or_eq_false_iff, decide_eq_false_iff_not, not_lt]
      exact ⟨h1, h72⟩
    have hpos : h > 0 := lt_of_lt_of_le one_pos h1
    have hreached : DoseAi.lastDoseReached body m = true := by
      unfold DoseAi.lastDoseReached
      rw [hL]
      simp [hLm]
    have hmain : DoseAi.doseAiHandler body (.ok parsed)
        = DoseAi.capReachedResponse (DoseAi.parseCalc parsed) m := by
      unfold DoseAi.doseAiHandler DoseAi.doseAiCore
      simp only [husable, Bool.not_true, Bool.false_eq_true, if_false, hguard]
      rw [hm, hd, hh]
      dsimp only
      rw [if_pos ⟨hpos, hex⟩, hreached]
      simp
    refine ⟨hmain, ?_, ?_, ?_, ?_, ?_⟩ <;> rw [hmain] <;> rfl

/-- C2 (witness): the specification's own example — cap 2000 mg from
"should not exceed 2 g per day", candidate 600 mg every 6 hours — via
`C2_cap_enforcement_amended`. -/
theorem C2_cap_enforcement_witness :
    (DoseAi.doseAiHandler capCexBody (.ok capParsedSix)).status
        ≠ DoseAi.Status.OK ∧
    (DoseAi.doseAiHandler capCexBody (.ok capParsedSix)).suggested_next_dose_mg
        = some 0 :=
  ⟨C2_cap_enforcement_amended.1 capCexBody capParsedSix 2000 600 6
      (by decide) (by decide) (by decide) (by decide),
   (C2_cap_enforcement_amended.2 capCexBody capParsedSix 2000 600 6 2500
      (by decide) (by decide) (by decide) (by decide) (by decide)
      (by decide) (by decide) (by decide) (by decide)).2.1⟩

/-- C3 (counterexample): with no evidence-block text at all but a legacy
`max_dose_limits` entry of 100 mg, the code's ceiling is 100 while the
claimed ceiling (minimum over daily-qualified evidence-text scan candidates
only, else null) is null. -/
theorem C3_cap_derivation_counterexample :
    DoseAi.usedDailyCap (DoseAi.parseCalc (.obj [])) limitsOnlyJson = some 100 ∧
    claimCapRule (DoseAi.parseCalc (.obj [])) limitsOnlyJson = none ∧
    some (100 : ℚ) ≠ (none : Option ℚ) := by
  refine ⟨by decide, by decide, by decide⟩

/-- C3 (amended): the oracle-asserted cap is enforced exactly when its quote
is non-empty, contains a numeric+unit token and a daily-period token, and a
page is cited; an uncorroborated oracle cap is discarded in favor of
`extractMaxDailyMg`, which is the minimum of the candidates collected from
(A) evidence-block text containing a `"day"`/`"daily"` qualifier (gram
matches times 1000, then mg matches), (B) `max_dose_limits` entries with
unit g or mg regardless of any daily qualifier, and (C) the first g and mg
matches of each dosing row's `max_daily_dose` text — or null when no
candidate exists. -/
theorem C3_cap_derivation_amended :
    (∀ (calcR : DoseAi.DoseCalc) (n : ℚ),
      DoseAi.trustAiDailyCap calcR = some n ↔
        (calcR.max_daily_mg = some n ∧
         (lowerStr ((calcR.max_daily_cap_quote).getD "")).isEmpty = false ∧
         hasUnitsTest (lowerStr ((calcR.max_daily_cap_quote).getD "")) = true ∧
         hasDailyTest (lowerStr ((calcR.max_daily_cap_quote).getD "")) = true ∧
         (calcR.max_daily_cap_page).isSome = true)) ∧
    (∀ (calcR : DoseAi.DoseCalc) (j : JsVal) (n : ℚ),
      DoseAi.trustAiDailyCap calcR = some n →
      DoseAi.usedDailyCap calcR j = some n) ∧
    (∀ (calcR : DoseAi.DoseCalc) (j : JsVal),
      DoseAi.trustAiDailyCap calcR = none →
      DoseAi.usedDailyCap calcR j = DoseAi.extractMaxDailyMg j) ∧
    (∀ (j : JsVal) (m : ℚ),
      DoseAi.extractMaxDailyMg j = some m ↔
        m ∈ DoseAi.capCandidates j ∧ ∀ c ∈ DoseAi.capCandidates j, m ≤ c) ∧
    (∀ j : JsVal,
      DoseAi.extractMaxDailyMg j = none ↔ DoseAi.capCandidates j = []) := by
  refine ⟨?_, ?_, ?_, ?_, ?_⟩
  · intro calcR n
    cases hmd : calcR.max_daily_mg with
    | none => simp [DoseAi.trustAiDailyCap, hmd]
    | some k =>
      simp only [DoseAi.trustAiDailyCap, hmd]
      by_cases hq : (lowerStr ((calcR.max_daily_cap_quote).getD "")).isEmpty
      · simp [hq]
      · by_cases hu : hasUnitsTest (lowerStr ((calcR.max_daily_cap_quote).getD ""))
        · by_cases hdy : hasDailyTest (lowerStr ((calcR.max_daily_cap_quote).getD ""))
          · cases hp : calcR.max_daily_cap_page <;>
              simp [hq, hu, hdy, hp, and_comm, eq_comm]
          · simp [hq, hu, hdy]
        · simp [hq, hu]
  · intro calcR j n ht
    unfold DoseAi.usedDailyCap
    rw [ht]
  · intro calcR j ht
    unfold DoseAi.usedDailyCap
    rw [ht]
  · intro j m
    unfold DoseAi.extractMaxDailyMg
    exact mathMin?_eq_some_iff _ _
  · intro j
    unfold DoseAi.extractMaxDailyMg
    exact mathMin?_eq_none_iff _

/-- C3 (witness): the min-characterization and the trust rule at concrete
inputs, via `C3_cap_derivation_amended`. -/
theorem C3_cap_derivation_witness :
    DoseAi.extractMaxDailyMg monographCapJson = some 2000 ∧
    DoseAi.trustAiDailyCap trustedCalc = some 1500 :=
  ⟨(C3_cap_derivation_amended.2.2.2.1 monographCapJson 2000).mpr
      ⟨by decide, by decide⟩,
   (C3_cap_derivation_amended.1 trustedCalc 1500).mpr
      ⟨rfl, by decide, by decide, by decide, rfl⟩⟩

/-- C4 (confirmed): on the claim's input the extractor selects the first
balanced brace span, removes the trailing comma, and parses to the object
with a=1 and a nested c=2; the cleaned span before parsing is exactly the
balanced object with the comma removed. -/
theorem C4_json_extractor :
    Pm.safeJsonParseObject "noise \x7b\"a\":1,\"b\":\x7b\"c\":2,\x7d\x7d trailing" =
      some (JsVal.obj [("a", JsVal.num 1), ("b", JsVal.obj [("c", JsVal.num 2)])]) ∧
    String.mk (Pm.removeTrailingCommas (Pm.sliceFirstJSONObject
        (Pm.stripCodeFences "noise \x7b\"a\":1,\"b\":\x7b\"c\":2,\x7d\x7d trailing".data)))
      = "\x7b\"a\":1,\"b\":\x7b\"c\":2\x7d\x7d" := by
  constructor
  · rfl
  · rfl

/-- C5 (confirmed): the repair loop makes at most 2 repair calls whatever
coverage gaps remain; the persisted status is `PARSE_FAIL` exactly when the
final evidence list is empty, and `OK` exactly when it is non-empty —
residual coverage gaps never block acceptance. -/
theorem C5_repair_loop :
    (∀ first repair1 repair2 : JsVal,
      (Pm.extractWithRepairs first repair1 repair2).2 ≤ 2) ∧
    (∀ first repair1 repair2 : JsVal,
      Pm.extractionCacheStatus first repair1 repair2 = CacheStatus.PARSE_FAIL ↔
        (Pm.extractWithRepairs first repair1 repair2).1.evidence_blocks = []) ∧
    (∀ first repair1 repair2 : JsVal,
      Pm.extractionCacheStatus first repair1 repair2 = CacheStatus.OK ↔
        (Pm.extractWithRepairs first repair1 repair2).1.evidence_blocks ≠ []) := by
  refine ⟨?_, ?_, ?_⟩
  · intro f r1 r2
    unfold Pm.extractWithRepairs
    dsimp only
    split_ifs <;> simp
  · intro f r1 r2
    unfold Pm.extractionCacheStatus Pm.openaiExtractPdfToJson
    by_cases hE : (Pm.extractWithRepairs f r1 r2).1.evidence_blocks.isEmpty <;>
      simp_all [List.isEmpty_iff]
  · intro f r1 r2
    unfold Pm.extractionCacheStatus Pm.openaiExtractPdfToJson
    by_cases hE : (Pm.extractWithRepairs f r1 r2).1.evidence_blocks.isEmpty <;>
      simp_all [List.isEmpty_iff]

/-- C6 (confirmed): the deduplicator keeps exactly the first occurrence of
each fingerprint — it equals the first-occurrence selection, is an
order-preserving sublist, leaves no two kept blocks with the same
fingerprint — and consequently every sanitized (persisted) evidence list has
pairwise-distinct fingerprints. -/
theorem C6_deduplicator :
    (∀ l : List Pm.EvidenceBlock, Pm.dedupeBlocks l = specFirstOccurrences l) ∧
    (∀ l : List Pm.EvidenceBlock, (Pm.dedupeBlocks l).Sublist l) ∧
    (∀ l : List Pm.EvidenceBlock, ((Pm.dedupeBlocks l).map Pm.blockKey).Nodup) ∧
    (∀ parsed : JsVal,
      (((Pm.sanitizeExtracted parsed).evidence_blocks).map Pm.blockKey).Nodup) := by
  refine ⟨dedupeBlocks_eq_spec, ?_, ?_, ?_⟩
  · intro l
    rw [dedupeBlocks_eq_spec]
    exact specFirstOccurrences_sublist l
  · intro l
    rw [dedupeBlocks_eq_spec]
    exact specFirstOccurrences_nodup_keys l
  · intro parsed
    unfold Pm.sanitizeExtracted
    dsimp only
    rw [dedupeBlocks_eq_spec]
    exact specFirstOccurrences_nodup_keys _

/-- C7 (counterexample): after four consecutive fetch failures the worker's
`prefetchOne` leaves the cache entry in status `PARSE_FAIL` (its catch-all),
not the claimed `FETCH_FAIL` — the error field is populated. -/
theorem C7_fetch_retry_counterexample :
    (Worker.fetchWithRetry allFailOutcomes (fun _ => 0) 4).1 = .error "HTTP 500" ∧
    (allFailRun.row.map fun r => r.cache_status) = some (some CacheStatus.PARSE_FAIL) ∧
    (allFailRun.row.map fun r => r.cache_error) = some (some "HTTP 500") ∧
    CacheStatus.PARSE_FAIL ≠ CacheStatus.FETCH_FAIL := by
  refine ⟨rfl, rfl, rfl, by decide⟩

/-- C7 (amended): the fetch is attempted up to 4 times; a success on any
attempt — e.g. after up to three consecutive failures — yields the fetched
bytes; four consecutive failures are terminal, yield the last error after
backoff delays of `300·2^(i-1)` ms plus that attempt's jitter, and leave the
cache entry in status `PARSE_FAIL` (the worker's catch-all failure status)
with a populated error field. -/
theorem C7_fetch_retry_amended :
    (∀ (outcomes : Nat → Except String String) (jitter : Nat → Nat)
        (payload : String) (k : Nat),
      1 ≤ k → k ≤ 4 →
      (∀ i, 1 ≤ i → i < k → ∃ e, outcomes i = .error e) →
      outcomes k = .ok payload →
      (Worker.fetchWithRetry outcomes jitter 4).1 = .ok payload) ∧
    (∀ (outcomes : Nat → Except String String) (jitter : Nat → Nat)
        (e1 e2 e3 e4 : String),
      outcomes 1 = .error e1 → outcomes 2 = .error e2 →
      outcomes 3 = .error e3 → outcomes 4 = .error e4 →
      Worker.fetchWithRetry outcomes jitter 4 =
        (.error e4,
         [300 + jitter 1, 600 + jitter 2, 1200 + jitter 3, 2400 + jitter 4])) ∧
    (∀ (outcomes : Nat → Except String String) (jitter : Nat → Nat)
        (sha : String → String) (oracle : Except String JsVal)
        (existing : Option CacheRow) (s : SrcRow) (e1 e2 e3 e4 : String),
      (existing.map fun r =>
        r.cache_status = some CacheStatus.OK && r.extracted_json.truthy).getD false
          = false →
      (trimStr ((s.pm_pdf_url).getD "")).isEmpty = false →
      outcomes 1 = .error e1 → outcomes 2 = .error e2 →
      outcomes 3 = .error e3 → outcomes 4 = .error e4 →
      ((Worker.prefetchOne existing (.ok (some s)) outcomes jitter sha oracle).row.map
          fun r => r.cache_status) = some (some CacheStatus.PARSE_FAIL) ∧
      ((Worker.prefetchOne existing (.ok (some s)) outcomes jitter sha oracle).row.map
          fun r => r.cache_error) = some (some e4) ∧
      (Worker.prefetchOne existing (.ok (some s)) outcomes jitter sha oracle).oracleInvoked
          = false ∧
      (Worker.prefetchOne existing (.ok (some s)) outcomes jitter sha oracle).detail.status
          = DetailStatus.FAIL ∧
      (Worker.prefetchOne existing (.ok (some s)) outcomes jitter sha oracle).detail.error
          = some e4) := by
  have hfail4 : ∀ (outcomes : Nat → Except String String) (jitter : Nat → Nat)
      (e1 e2 e3 e4 : String),
      outcomes 1 = .error e1 → outcomes 2 = .error e2 →
      outcomes 3 = .error e3 → outcomes 4 = .error e4 →
      Worker.fetchWithRetry outcomes jitter 4 =
        (.error e4,
         [300 + jitter 1, 600 + jitter 2, 1200 + jitter 3, 2400 + jitter 4]) := by
    intro outcomes jitter e1 e2 e3 e4 h1 h2 h3 h4
    simp [Worker.fetchWithRetry, Worker.fetchLoop, h1, h2, h3, h4]
  refine ⟨?_, hfail4, ?_⟩
  · intro outcomes jitter payload k hk1 hk4 hfail hok
    interval_cases k
    · simp [Worker.fetchWithRetry, Worker.fetchLoop, hok]
    · obtain ⟨e1, h1⟩ := hfail 1 (by norm_num) (by norm_num)
      simp [Worker.fetchWithRetry, Worker.fetchLoop, h1, hok]
    · obtain ⟨e1, h1⟩ := hfail 1 (by norm_num) (by norm_num)
      obtain ⟨e2, h2⟩ := hfail 2 (by norm_num) (by norm_num)
      simp [Worker.fetchWithRetry, Worker.fetchLoop, h1, h2, hok]
    · obtain ⟨e1, h1⟩ := hfail 1 (by norm_num) (by norm_num)
      obtain ⟨e2, h2⟩ := hfail 2 (by norm_num) (by norm_num)
      obtain ⟨e3, h3⟩ := hfail 3 (by norm_num) (by norm_num)
      simp [Worker.fetchWithRetry, Worker.fetchLoop, h1, h2, h3, hok]
  · intro outcomes jitter sha oracle existing s e1 e2 e3 e4 hshort hurl h1 h2 h3 h4
    have hfetch := hfail4 outcomes jitter e1 e2 e3 e4 h1 h2 h3 h4
    unfold Worker.prefetchOne
    rw [hshort]
    simp only [Bool.false_eq_true, if_false]
    rw [if_neg (by rw [hurl]; exact Bool.false_ne_true)]
    rw [hfetch]
    exact ⟨rfl, rfl, rfl, rfl, rfl⟩

/-- C7 (witness): three transient failures followed by a success yield the
bytes, and the all-fail worker run ends in `PARSE_FAIL` with the error
recorded, via `C7_fetch_retry_amended`. -/
theorem C7_fetch_retry_witness :
    (Worker.fetchWithRetry flakyOutcomes (fun _ => 0) 4).1 = .ok "BYTES" ∧
    ((Worker.prefetchOne none (.ok (some pdfSrcRow)) allFailOutcomes (fun _ => 0)
        (fun _ => "h") (.error "OpenAI extraction failed: 500")).row.map
      fun r => r.cache_status) = some (some CacheStatus.PARSE_FAIL) :=
  ⟨C7_fetch_retry_amended.1 flakyOutcomes (fun _ => 0) "BYTES" 3 (by norm_num)
      (by norm_num)
      (fun i hi1 hi3 => ⟨"HTTP 503", by interval_cases i <;> rfl⟩) rfl,
   (C7_fetch_retry_amended.2.2 allFailOutcomes (fun _ => 0) (fun _ => "h")
      (.error "OpenAI extraction failed: 500") none pdfSrcRow
      "HTTP 500" "HTTP 500" "HTTP 500" "HTTP 500" rfl (by decide)
      rfl rfl rfl rfl).1⟩

/-- C8 (code bug): a cache row with prior status `OK` and stored fingerprint
`"h"`, re-fetched to bytes whose fingerprint is again `"h"`, nevertheless
re-invokes the extraction oracle and overwrites the stored extraction — the
short-circuit guard is dead code, because the upsert that precedes it
already overwrote `cache_status` with `NEW` (`PENDING` in the
`pm_prefetch` iteration) and the guard re-reads that value. -/
theorem C8_fingerprint_code_bug :
    fingerprintRow.cache_status = some CacheStatus.OK ∧
    fingerprintRow.source_hash = some "h" ∧
    fingerprintRun.oracleInvoked = true ∧
    (fingerprintRun.row.map fun r => r.extracted_json) = some rerunExtractionJson ∧
    rerunExtractionJson ≠ fingerprintRow.extracted_json ∧
    (fingerprintRun.row.map fun r => r.cache_status) = some (some CacheStatus.OK) := by
  refine ⟨rfl, rfl, rfl, rfl, fun h => JsVal.noConfusion h, rfl⟩
